import Mathlib

/-
Shallow embedding of the UVTransport stream transport
(src/uvloop/handles/transport.pyx).

The transport object is modelled as a record holding the transport's own
fields (underscore-named, as in the source) together with the observable
state of its external collaborators: the stream handle's pending write
buffer size and reading flag, the loop's call-soon queue, a log of
protocol callbacks delivered (newest first), the owning listener's detach
count, and a count of half-close shutdown requests issued to the handle.

Each source method becomes a Lean function on this record; methods that
raise to their caller return Except.  Asynchronous execution is a step
function over an operation alphabet (I/O completion hooks, public API
calls, and running the next scheduled call-soon callback).
-/

/-- Classification of OS-level errors, as used by the fatal-error path
(BrokenPipeError / ConnectionResetError / ConnectionAbortedError versus
anything else). -/
inductive OSErr where
  | brokenPipe
  | connectionReset
  | connectionAborted
  | other
deriving DecidableEq, Repr

/-- Exceptions raised synchronously to the caller of a public method. -/
inductive PyErr where
  | runtimeError (msg : String)
  | valueError (msg : String)
deriving DecidableEq, Repr

/-- Protocol callbacks delivered to the bound protocol handler. -/
inductive PEvent where
  | connectionMade
  | connectionLost (exc : Option OSErr)
  | dataReceived (len : Nat)
  | eofReceived (keepOpen : Bool)
  | pauseWriting
  | resumeWriting
deriving DecidableEq, Repr

/-- Callbacks placed on the loop's call-soon queue by the transport. -/
inductive SchedCall where
  | callConnectionMade
  | callConnectionLost (exc : Option OSErr)
deriving DecidableEq, Repr

/-- Modelled from the spec: the fixed high-water constant (64 KiB) lives in
the constants include outside this source tree; the spec calls it the
"64KiB-equivalent" fixed constant. -/
def FLOW_CONTROL_HIGH_WATER : Int := 65536

/-- Modelled from the spec: the fixed low-water constant (16 KiB, a quarter
of the high constant) lives in the constants include outside this source
tree. -/
def FLOW_CONTROL_LOW_WATER : Int := 16384

/-- State of one transport, its stream handle, and the loop facilities it
touches. -/
structure Transport where
  _protocol : Bool
  _protocol_connected : Bool
  _protocol_paused : Bool
  _eof : Bool
  _closing : Bool
  _closed : Bool
  _conn_lost : Nat
  _flow_control_enabled : Bool
  _high_water : Int
  _low_water : Int
  _server : Bool
  reading : Bool
  wbuf : Nat
  sched : List SchedCall
  log : List PEvent
  serverDetached : Nat
  shutdownCount : Nat
deriving DecidableEq, Repr

/-- Modelled from the spec: UVStream._get_write_buffer_size (stream-handle
layer, not in this source tree) reports the pending write-buffer size. -/
def Transport._get_write_buffer_size (t : Transport) : Nat := t.wbuf

/-- Modelled from the spec: UVStream._stop_reading. -/
def Transport._stop_reading (t : Transport) : Transport := { t with reading := false }

/-- Modelled from the spec: UVStream._start_reading. -/
def Transport._start_reading (t : Transport) : Transport := { t with reading := true }

/-- Modelled from the spec: UVStream._is_reading. -/
def Transport._is_reading (t : Transport) : Bool := t.reading

/-- Modelled from the spec: UVHandle._close releases the underlying handle
and marks it closed. -/
def Transport._close (t : Transport) : Transport := { t with _closed := true }

/-- Modelled from the spec: UVStream._shutdown performs the half-close
shutdown on the underlying handle. -/
def Transport._shutdown (t : Transport) : Transport :=
  { t with shutdownCount := t.shutdownCount + 1 }

/-- Modelled from the spec: UVStream._write enqueues the bytes on the
handle's pending write buffer. -/
def UVStream_write (t : Transport) (len : Nat) : Transport :=
  { t with wbuf := t.wbuf + len }

/-- UVTransport._maybe_pause_protocol. -/
def Transport._maybe_pause_protocol (t : Transport) : Transport :=
  if ¬t._flow_control_enabled then t
  else if (t._get_write_buffer_size : Int) ≤ t._high_water then t
  else if ¬t._protocol_paused then
    { t with _protocol_paused := true, log := PEvent.pauseWriting :: t.log }
  else t

/-- UVTransport._maybe_resume_protocol. -/
def Transport._maybe_resume_protocol (t : Transport) : Transport :=
  if ¬t._flow_control_enabled then t
  else if t._protocol_paused ∧ (t._get_write_buffer_size : Int) ≤ t._low_water then
    { t with _protocol_paused := false, log := PEvent.resumeWriting :: t.log }
  else t

/-- UVTransport._call_connection_made; raises reports whether the
protocol's connection_made callback raised (in which case the flag set and
start of reading are skipped, the exception propagating to the loop's
callback runner, which only reports it). -/
def Transport._call_connection_made (t : Transport) (raises : Bool) : Transport :=
  if ¬t._protocol then t
  else
    let t1 := { t with log := PEvent.connectionMade :: t.log }
    if raises then t1
    else ({ t1 with _protocol_connected := true })._start_reading

/-- UVTransport._call_connection_lost; raises reports whether the
protocol's connection_lost callback raised.  The finally block (clearing
the protocol, detaching from the server, closing the handle) runs either
way; the exception then propagates to the loop machinery, which only
reports it. -/
def Transport._call_connection_lost (t : Transport) (exc : Option OSErr)
    (raises : Bool) : Transport :=
  if t._closed then t
  else
    let t1 := if t._protocol_connected then
        { t with log := PEvent.connectionLost exc :: t.log }
      else t
    let t2 := { t1 with _protocol := false }
    let t3 := if t2._server then
        { t2 with _server := false, serverDetached := t2.serverDetached + 1 }
      else t2
    t3._close

/-- UVTransport._schedule_call_connection_made. -/
def Transport._schedule_call_connection_made (t : Transport) : Transport :=
  { t with sched := t.sched ++ [SchedCall.callConnectionMade] }

/-- UVTransport._schedule_call_connection_lost. -/
def Transport._schedule_call_connection_lost (t : Transport) (exc : Option OSErr) :
    Transport :=
  { t with sched := t.sched ++ [SchedCall.callConnectionLost exc] }

/-- UVTransport._force_close.  Note the exception argument is dropped: the
scheduled connection-lost call always carries None. -/
def Transport._force_close (t : Transport) (exc : Option OSErr) : Transport :=
  if t._conn_lost ≠ 0 ∨ t._closed then t
  else
    let t1 := if ¬t._closing then ({ t with _closing := true })._stop_reading else t
    let t2 := { t1 with _conn_lost := t1._conn_lost + 1 }
    t2._schedule_call_connection_lost none

/-- UVTransport._fatal_error: peer-termination errors are not reported to
the exception handler (reporting has no transport-state effect and is not
tracked); in all cases force-close follows, with the triggering exception
passed along (and dropped there). -/
def Transport._fatal_error (t : Transport) (exc : OSErr) : Transport :=
  t._force_close (some exc)

/-- UVTransport.close. -/
def Transport.close (t : Transport) : Transport :=
  if t._closing ∨ t._closed then t
  else
    let t1 := ({ t with _closing := true })._stop_reading
    if t1._get_write_buffer_size = 0 then
      ({ t1 with _conn_lost := t1._conn_lost + 1 })._schedule_call_connection_lost none
    else t1

/-- UVTransport.abort. -/
def Transport.abort (t : Transport) : Transport := t._force_close none

/-- UVTransport.is_closing. -/
def Transport.is_closing (t : Transport) : Bool := t._closing

/-- UVTransport._write: enqueue on the stream then re-check pause. -/
def Transport._write (t : Transport) (len : Nat) : Transport :=
  (UVStream_write t len)._maybe_pause_protocol

/-- UVTransport._on_read: deliver bytes synchronously to the protocol. -/
def Transport._on_read (t : Transport) (len : Nat) : Transport :=
  { t with log := PEvent.dataReceived len :: t.log }

/-- UVTransport._on_eof: ask the protocol whether to keep the half-open
connection; stop reading if so, otherwise close. -/
def Transport._on_eof (t : Transport) (keepOpen : Bool) : Transport :=
  let t1 := { t with log := PEvent.eofReceived keepOpen :: t.log }
  if keepOpen then t1._stop_reading else t1.close

/-- UVTransport._on_accept: schedule the deferred connection_made call. -/
def Transport._on_accept (t : Transport) : Transport :=
  t._schedule_call_connection_made

/-- UVTransport._on_write: run after a write completion; re-check resume,
then if the buffer is empty either finish the close (calling the
connection-lost routine inline) or perform a pending half-close. -/
def Transport._on_write (t : Transport) (raises : Bool) : Transport :=
  let t1 := t._maybe_resume_protocol
  if t1._get_write_buffer_size = 0 then
    if t1._closing then t1._call_connection_lost none raises
    else if t1._eof then t1._shutdown
    else t1
  else t1

/-- UVTransport.write. -/
def Transport.write (t : Transport) (len : Nat) : Except PyErr Transport :=
  if t._eof then
    Except.error (PyErr.runtimeError "Cannot call write() after write_eof()")
  else if len = 0 then Except.ok t
  else if t._conn_lost ≠ 0 then Except.ok { t with _conn_lost := t._conn_lost + 1 }
  else Except.ok ((t._write len)._maybe_pause_protocol)

/-- UVTransport.writelines: write each buffer; a raise stops the loop. -/
def Transport.writelines (t : Transport) (bufs : List Nat) : Except PyErr Transport :=
  bufs.foldlM Transport.write t

/-- UVTransport.write_eof. -/
def Transport.write_eof (t : Transport) : Transport :=
  if t._eof then t
  else
    let t1 := { t with _eof := true }
    if t1._get_write_buffer_size = 0 then t1._shutdown else t1

/-- UVTransport.can_write_eof. -/
def Transport.can_write_eof (_t : Transport) : Bool := true

/-- UVTransport.pause_reading. -/
def Transport.pause_reading (t : Transport) : Except PyErr Transport :=
  if t._closing then Except.error (PyErr.runtimeError "Cannot pause_reading() when closing")
  else if ¬t._is_reading then Except.error (PyErr.runtimeError "Already paused")
  else Except.ok t._stop_reading

/-- UVTransport.resume_reading. -/
def Transport.resume_reading (t : Transport) : Except PyErr Transport :=
  if t._is_reading then Except.error (PyErr.runtimeError "Not paused")
  else if t._closing then Except.ok t
  else Except.ok t._start_reading

/-- UVTransport.get_write_buffer_size. -/
def Transport.get_write_buffer_size (t : Transport) : Nat :=
  t._get_write_buffer_size

/-- The defaulting of an unspecified high threshold, as the source writes
it: the high constant when low is also unspecified, the low constant when
low was given. -/
def defaultHigh (high low : Int) : Int :=
  if high = -1 then
    (if low = -1 then FLOW_CONTROL_HIGH_WATER else FLOW_CONTROL_LOW_WATER)
  else high

/-- The defaulting of an unspecified low threshold: a quarter of the
(already defaulted) high value. -/
def defaultLow (high1 low : Int) : Int :=
  if low = -1 then high1.fdiv 4 else low

/-- UVTransport._set_write_buffer_limits (the cdef with int defaults -1
standing for unspecified). -/
def Transport._set_write_buffer_limits (t : Transport) (high low : Int) :
    Except PyErr Transport :=
  let high1 := defaultHigh high low
  let low1 := defaultLow high1 low
  if ¬(high1 ≥ low1 ∧ low1 ≥ 0) then
    Except.error (PyErr.valueError
      s!"high ({high1}) must be >= low ({low1}) must be >= 0")
  else
    let t1 := { t with _high_water := high1, _low_water := low1 }
    Except.ok ((t1._maybe_pause_protocol)._maybe_resume_protocol)

/-- The None-to-sentinel conversion the public method performs on each
threshold argument. -/
def optToInt : Option Int → Int
  | none => -1
  | some v => v

/-- UVTransport.set_write_buffer_limits (the public method; None becomes
the -1 sentinel). -/
def Transport.set_write_buffer_limits (t : Transport) (high low : Option Int) :
    Except PyErr Transport :=
  t._set_write_buffer_limits (optToInt high) (optToInt low)

/-- UVTransport.get_write_buffer_limits. -/
def Transport.get_write_buffer_limits (t : Transport) : Int × Int :=
  (t._low_water, t._high_water)

/-- Operation alphabet for the asynchronous execution model: stream-handle
I/O completion hooks, running the next call-soon callback, and the public
API.  Boolean raises arguments are oracles for whether the corresponding
protocol callback raises; onWrite carries the number of bytes the handle
flushed before invoking the hook. -/
inductive Op where
  | onAccept
  | onRead (len : Nat)
  | onEof (keepOpen : Bool)
  | onWrite (flushed : Nat) (raises : Bool)
  | runSoon (raises : Bool)
  | close
  | abort
  | write (len : Nat)
  | writeEof
  | pauseReading
  | resumeReading
  | setWriteBufferLimits (high low : Option Int)
  | fatalError (exc : OSErr)
deriving DecidableEq, Repr

/-- Run the next callback on the call-soon queue, if any. -/
def runNext (t : Transport) (raises : Bool) : Transport :=
  match h : t.sched with
  | [] => t
  | c :: rest =>
    let t1 := { t with sched := rest }
    match c with
    | SchedCall.callConnectionMade => t1._call_connection_made raises
    | SchedCall.callConnectionLost exc => t1._call_connection_lost exc raises

/-- A method that raises to its caller leaves the transport state
unchanged (every raise in the source happens before any mutation). -/
def keep (t : Transport) : Except PyErr Transport → Transport
  | Except.ok t1 => t1
  | Except.error _ => t

/-- One step of the asynchronous execution model. -/
def step (t : Transport) : Op → Transport
  | Op.onAccept => t._on_accept
  | Op.onRead n => t._on_read n
  | Op.onEof k => t._on_eof k
  | Op.onWrite f r => ({ t with wbuf := t.wbuf - f })._on_write r
  | Op.runSoon r => runNext t r
  | Op.close => t.close
  | Op.abort => t.abort
  | Op.write n => keep t (t.write n)
  | Op.writeEof => t.write_eof
  | Op.pauseReading => keep t t.pause_reading
  | Op.resumeReading => keep t t.resume_reading
  | Op.setWriteBufferLimits h l => keep t (t.set_write_buffer_limits h l)
  | Op.fatalError e => t._fatal_error e

/-- A freshly established transport: protocol bound, flow control on,
default water marks, nothing buffered or scheduled; hasServer tells
whether it is attached to an owning listener. -/
def initTransport (hasServer : Bool) : Transport :=
  { _protocol := true
    _protocol_connected := false
    _protocol_paused := false
    _eof := false
    _closing := false
    _closed := false
    _conn_lost := 0
    _flow_control_enabled := true
    _high_water := FLOW_CONTROL_HIGH_WATER
    _low_water := FLOW_CONTROL_LOW_WATER
    _server := hasServer
    reading := false
    wbuf := 0
    sched := []
    log := []
    serverDetached := 0
    shutdownCount := 0 }

/-- Run a whole trace of operations from a fresh transport. -/
def execTrace (hasServer : Bool) (ops : List Op) : Transport :=
  ops.foldl step (initTransport hasServer)

/-- Recognize a connection-lost callback event. -/
def isLostEvent : PEvent → Bool
  | PEvent.connectionLost _ => true
  | _ => false

/-- Number of connection-lost deliveries in a log. -/
def countLost (l : List PEvent) : Nat := l.countP isLostEvent

/-- Recognize a connection-made callback event. -/
def isMadeEvent : PEvent → Bool
  | PEvent.connectionMade => true
  | _ => false

/-- Whether the log contains a connection-made delivery. -/
def hasMade (l : List PEvent) : Bool := l.any isMadeEvent

/-- Every connection-lost delivery has a connection-made delivery strictly
earlier in time (the log is newest-first). -/
def lostAfterMade : List PEvent → Bool
  | [] => true
  | e :: rest => (!isLostEvent e || hasMade rest) && lostAfterMade rest

/-- A connection-lost event carries no exception (other events trivially
pass). -/
def evArgOk : PEvent → Bool
  | PEvent.connectionLost exc => exc.isNone
  | _ => true

/-- Every connection-lost delivery in the log carries no exception. -/
def lostArgsNone (l : List PEvent) : Bool := l.all evArgOk

/-- A scheduled connection-lost call carries no exception. -/
def schedCallOk : SchedCall → Bool
  | SchedCall.callConnectionLost exc => exc.isNone
  | _ => true

/-- Every connection-lost callback on the call-soon queue carries no
exception. -/
def schedLostNone (s : List SchedCall) : Bool := s.all schedCallOk

/-- Whether an Except result is an error. -/
def isErr : Except PyErr Transport → Bool
  | Except.error _ => true
  | Except.ok _ => false

/-- Whether a raised error is a ValueError. -/
def isValueError : PyErr → Bool
  | PyErr.valueError _ => true
  | _ => false

/-- The inductive invariant of reachable transport states used by the
lifecycle theorems. -/
structure TransportInv (t : Transport) : Prop where
  lostZeroWhileOpen : t._closed = false → countLost t.log = 0
  lostAtMostOnce : countLost t.log ≤ 1
  connectedHasMade : t._protocol_connected = true → hasMade t.log = true
  ordered : lostAfterMade t.log = true
  serverFresh : t._server = true → t.serverDetached = 0
  detachAtMostOnce : t.serverDetached ≤ 1
  argsNone : lostArgsNone t.log = true
  schedNone : schedLostNone t.sched = true

/-- Counting connection-lost events through a cons. -/
theorem countLost_cons (e : PEvent) (l : List PEvent) :
    countLost (e :: l) = countLost l + (if isLostEvent e then 1 else 0) := by
  simp [countLost, List.countP_cons]

/-- Made-membership through a cons. -/
theorem hasMade_cons (e : PEvent) (l : List PEvent) :
    hasMade (e :: l) = (isMadeEvent e || hasMade l) := by
  simp [hasMade, List.any_cons]

/-- Ordering predicate through a cons. -/
theorem lostAfterMade_cons (e : PEvent) (l : List PEvent) :
    lostAfterMade (e :: l) = ((!isLostEvent e || hasMade l) && lostAfterMade l) := rfl

/-- Argument predicate through a cons. -/
theorem lostArgsNone_cons (e : PEvent) (l : List PEvent) :
    lostArgsNone (e :: l) = (evArgOk e && lostArgsNone l) := by
  simp [lostArgsNone, List.all_cons]

/-- Queue predicate through a cons. -/
theorem schedLostNone_cons (c : SchedCall) (s : List SchedCall) :
    schedLostNone (c :: s) = (schedCallOk c && schedLostNone s) := by
  simp [schedLostNone, List.all_cons]

/-- Queue predicate through an append. -/
theorem schedLostNone_append (s1 s2 : List SchedCall) :
    schedLostNone (s1 ++ s2) = (schedLostNone s1 && schedLostNone s2) := by
  simp [schedLostNone, List.all_append]

/-- Frame rule: a state change that leaves the log, the closed flag, the
server fields and (weakly) the connected flag in place preserves the
invariant, provided the new queue still carries only exception-free
connection-lost calls. -/
theorem inv_frame (t t' : Transport) (h : TransportInv t)
    (hlog : t'.log = t.log)
    (hclosed : t'._closed = t._closed)
    (hconn : t'._protocol_connected = true → t._protocol_connected = true)
    (hserver : t'._server = t._server)
    (hdet : t'.serverDetached = t.serverDetached)
    (hsched : schedLostNone t'.sched = true) : TransportInv t' := by
  refine ⟨?_, ?_, ?_, ?_, ?_, ?_, ?_, hsched⟩
  · intro hc; rw [hlog]; exact h.lostZeroWhileOpen (hclosed ▸ hc)
  · rw [hlog]; exact h.lostAtMostOnce
  · intro hc; rw [hlog]; exact h.connectedHasMade (hconn hc)
  · rw [hlog]; exact h.ordered
  · intro hs; rw [hdet]; exact h.serverFresh (hserver ▸ hs)
  · rw [hdet]; exact h.detachAtMostOnce
  · rw [hlog]; exact h.argsNone

/-- Frame rule for delivering one benign (non-lost) protocol callback. -/
theorem inv_cons_frame (t t' : Transport) (e : PEvent) (h : TransportInv t)
    (he : isLostEvent e = false) (ha : evArgOk e = true)
    (hlog : t'.log = e :: t.log)
    (hclosed : t'._closed = t._closed)
    (hconn : t'._protocol_connected = true →
      t._protocol_connected = true ∨ isMadeEvent e = true)
    (hserver : t'._server = t._server)
    (hdet : t'.serverDetached = t.serverDetached)
    (hsched : schedLostNone t'.sched = true) : TransportInv t' := by
  refine ⟨?_, ?_, ?_, ?_, ?_, ?_, ?_, hsched⟩
  · intro hc
    rw [hlog, countLost_cons, he]
    simpa using h.lostZeroWhileOpen (hclosed ▸ hc)
  · rw [hlog, countLost_cons, he]
    simpa using h.lostAtMostOnce
  · intro hc
    rw [hlog, hasMade_cons]
    rcases hconn hc with hc1 | hc1
    · rw [h.connectedHasMade hc1, Bool.or_true]
    · rw [hc1, Bool.true_or]
  · rw [hlog, lostAfterMade_cons, he]
    simp [h.ordered]
  · intro hs; rw [hdet]; exact h.serverFresh (hserver ▸ hs)
  · rw [hdet]; exact h.detachAtMostOnce
  · rw [hlog, lostArgsNone_cons, ha, h.argsNone]; rfl


/-- Turn the negation of a Bool-equals-true fact into equals-false. -/
theorem bool_eq_false {b : Bool} (h : ¬b = true) : b = false := by
  cases hb : b
  · rfl
  · exact absurd hb h

/-- The pause check preserves the invariant. -/
theorem inv_maybe_pause (t : Transport) (h : TransportInv t) :
    TransportInv t._maybe_pause_protocol := by
  unfold Transport._maybe_pause_protocol
  split
  · exact h
  · split
    · exact h
    · split
      · exact inv_cons_frame t _ PEvent.pauseWriting h rfl rfl rfl rfl
          (fun hc => Or.inl hc) rfl rfl h.schedNone
      · exact h

/-- The resume check preserves the invariant. -/
theorem inv_maybe_resume (t : Transport) (h : TransportInv t) :
    TransportInv t._maybe_resume_protocol := by
  unfold Transport._maybe_resume_protocol
  split
  · exact h
  · split
    · exact inv_cons_frame t _ PEvent.resumeWriting h rfl rfl rfl rfl
        (fun hc => Or.inl hc) rfl rfl h.schedNone
    · exact h

/-- Delivering connection_made preserves the invariant. -/
theorem inv_call_connection_made (t : Transport) (r : Bool) (h : TransportInv t) :
    TransportInv (t._call_connection_made r) := by
  unfold Transport._call_connection_made
  split
  · exact h
  · split
    · exact inv_cons_frame t _ PEvent.connectionMade h rfl rfl rfl rfl
        (fun hc => Or.inl hc) rfl rfl h.schedNone
    · exact inv_cons_frame t _ PEvent.connectionMade h rfl rfl rfl rfl
        (fun _ => Or.inr rfl) rfl rfl h.schedNone

/-- The final teardown routine preserves the invariant when invoked with
no exception (as it always is on every reachable path). -/
theorem inv_call_connection_lost (t : Transport) (r : Bool) (h : TransportInv t) :
    TransportInv (t._call_connection_lost none r) := by
  unfold Transport._call_connection_lost Transport._close
  by_cases hc : t._closed = true
  · simp only [hc, if_true]
    exact h
  · have hc0 : t._closed = false := bool_eq_false hc
    have hz : countLost t.log = 0 := h.lostZeroWhileOpen hc0
    simp only [hc0, Bool.false_eq_true, if_false]
    by_cases hpc : t._protocol_connected = true
    · have hmade : hasMade t.log = true := h.connectedHasMade hpc
      by_cases hsrv : t._server = true
      · have hdet0 : t.serverDetached = 0 := h.serverFresh hsrv
        simp only [hpc, hsrv, if_true]
        refine ⟨?_, ?_, ?_, ?_, ?_, ?_, ?_, ?_⟩ <;>
          simp [countLost_cons, hasMade_cons, lostAfterMade_cons, lostArgsNone_cons,
            isLostEvent, evArgOk, hz, hmade, hdet0, h.ordered, h.argsNone, h.schedNone]
      · have hsrv0 : t._server = false := bool_eq_false hsrv
        simp only [hpc, hsrv0, Bool.false_eq_true, if_true, if_false]
        refine ⟨?_, ?_, ?_, ?_, ?_, ?_, ?_, ?_⟩ <;>
          simp [countLost_cons, hasMade_cons, lostAfterMade_cons, lostArgsNone_cons,
            isLostEvent, evArgOk, hz, hmade, h.ordered, h.argsNone, h.schedNone,
            h.detachAtMostOnce]
    · have hpc0 : t._protocol_connected = false := bool_eq_false hpc
      simp only [hpc0, Bool.false_eq_true, if_false]
      by_cases hsrv : t._server = true
      · have hdet0 : t.serverDetached = 0 := h.serverFresh hsrv
        simp only [hsrv, if_true]
        refine ⟨?_, ?_, ?_, ?_, ?_, ?_, ?_, ?_⟩ <;>
          simp [hpc0, hz, hdet0, h.ordered, h.argsNone, h.schedNone, h.lostAtMostOnce]
      · have hsrv0 : t._server = false := bool_eq_false hsrv
        simp only [hsrv0, Bool.false_eq_true, if_false]
        refine ⟨?_, ?_, ?_, ?_, ?_, ?_, ?_, ?_⟩ <;>
          simp [hpc0, hz, h.ordered, h.argsNone, h.schedNone, h.lostAtMostOnce,
            h.detachAtMostOnce]


/-- Scheduling the deferred connection_made call preserves the invariant. -/
theorem inv_schedule_made (t : Transport) (h : TransportInv t) :
    TransportInv t._schedule_call_connection_made := by
  refine inv_frame t _ h rfl rfl (fun hc => hc) rfl rfl ?_
  show schedLostNone (t.sched ++ [SchedCall.callConnectionMade]) = true
  rw [schedLostNone_append, h.schedNone]
  rfl

/-- Scheduling the deferred connection_lost call with no exception
preserves the invariant. -/
theorem inv_schedule_lost (t : Transport) (h : TransportInv t) :
    TransportInv (t._schedule_call_connection_lost none) := by
  refine inv_frame t _ h rfl rfl (fun hc => hc) rfl rfl ?_
  show schedLostNone (t.sched ++ [SchedCall.callConnectionLost none]) = true
  rw [schedLostNone_append, h.schedNone]
  rfl

/-- Force-close preserves the invariant. -/
theorem inv_force_close (t : Transport) (exc : Option OSErr) (h : TransportInv t) :
    TransportInv (t._force_close exc) := by
  unfold Transport._force_close
  split
  · exact h
  · split
    · refine inv_schedule_lost _ (inv_frame t _ h ?_ ?_ ?_ ?_ ?_ ?_) <;>
        simp [Transport._stop_reading, h.schedNone]
    · refine inv_schedule_lost _ (inv_frame t _ h ?_ ?_ ?_ ?_ ?_ ?_) <;>
        simp [h.schedNone]

/-- The fatal-error path preserves the invariant. -/
theorem inv_fatal_error (t : Transport) (exc : OSErr) (h : TransportInv t) :
    TransportInv (t._fatal_error exc) :=
  inv_force_close t (some exc) h

/-- close preserves the invariant. -/
theorem inv_close (t : Transport) (h : TransportInv t) :
    TransportInv t.close := by
  unfold Transport.close
  split
  · exact h
  · dsimp only
    split
    · refine inv_schedule_lost _ (inv_frame t _ h ?_ ?_ ?_ ?_ ?_ ?_) <;>
        simp [Transport._stop_reading, h.schedNone]
    · refine inv_frame t _ h ?_ ?_ ?_ ?_ ?_ ?_ <;>
        simp [Transport._stop_reading, h.schedNone]

/-- abort preserves the invariant. -/
theorem inv_abort (t : Transport) (h : TransportInv t) :
    TransportInv t.abort :=
  inv_force_close t none h

/-- The inbound-data hook preserves the invariant. -/
theorem inv_on_read (t : Transport) (n : Nat) (h : TransportInv t) :
    TransportInv (t._on_read n) :=
  inv_cons_frame t _ (PEvent.dataReceived n) h rfl rfl rfl rfl
    (fun hc => Or.inl hc) rfl rfl h.schedNone

/-- The peer-EOF hook preserves the invariant. -/
theorem inv_on_eof (t : Transport) (k : Bool) (h : TransportInv t) :
    TransportInv (t._on_eof k) := by
  unfold Transport._on_eof
  have h1 : TransportInv { t with log := PEvent.eofReceived k :: t.log } :=
    inv_cons_frame t _ (PEvent.eofReceived k) h rfl rfl rfl rfl
      (fun hc => Or.inl hc) rfl rfl h.schedNone
  dsimp only
  split
  · exact inv_frame _ _ h1 rfl rfl (fun hc => hc) rfl rfl h1.schedNone
  · exact inv_close _ h1

/-- The accept hook preserves the invariant. -/
theorem inv_on_accept (t : Transport) (h : TransportInv t) :
    TransportInv t._on_accept :=
  inv_schedule_made t h

/-- The write-completion hook preserves the invariant. -/
theorem inv_on_write (t : Transport) (r : Bool) (h : TransportInv t) :
    TransportInv (t._on_write r) := by
  unfold Transport._on_write
  have h1 : TransportInv t._maybe_resume_protocol := inv_maybe_resume t h
  dsimp only
  split
  · split
    · exact inv_call_connection_lost _ r h1
    · split
      · exact inv_frame _ _ h1 rfl rfl (fun hc => hc) rfl rfl h1.schedNone
      · exact h1
  · exact h1

/-- Enqueuing bytes on the stream preserves the invariant. -/
theorem inv_uvstream_write (t : Transport) (n : Nat) (h : TransportInv t) :
    TransportInv (UVStream_write t n) :=
  inv_frame t _ h rfl rfl (fun hc => hc) rfl rfl h.schedNone

/-- The transport write helper preserves the invariant. -/
theorem inv_write_helper (t : Transport) (n : Nat) (h : TransportInv t) :
    TransportInv (t._write n) :=
  inv_maybe_pause _ (inv_uvstream_write t n h)

/-- The public write method preserves the invariant (via keep). -/
theorem inv_write (t : Transport) (n : Nat) (h : TransportInv t) :
    TransportInv (keep t (t.write n)) := by
  unfold Transport.write
  split
  · exact h
  · split
    · exact h
    · split
      · exact inv_frame t _ h rfl rfl (fun hc => hc) rfl rfl h.schedNone
      · exact inv_maybe_pause _ (inv_write_helper t n h)

/-- write_eof preserves the invariant. -/
theorem inv_write_eof (t : Transport) (h : TransportInv t) :
    TransportInv t.write_eof := by
  unfold Transport.write_eof
  split
  · exact h
  · dsimp only
    split
    · refine inv_frame t _ h ?_ ?_ ?_ ?_ ?_ ?_ <;>
        simp [Transport._shutdown, h.schedNone]
    · exact inv_frame t _ h rfl rfl (fun hc => hc) rfl rfl h.schedNone

/-- pause_reading preserves the invariant (via keep). -/
theorem inv_pause_reading (t : Transport) (h : TransportInv t) :
    TransportInv (keep t t.pause_reading) := by
  unfold Transport.pause_reading
  split
  · exact h
  · split
    · exact h
    · exact inv_frame t _ h rfl rfl (fun hc => hc) rfl rfl h.schedNone

/-- resume_reading preserves the invariant (via keep). -/
theorem inv_resume_reading (t : Transport) (h : TransportInv t) :
    TransportInv (keep t t.resume_reading) := by
  unfold Transport.resume_reading
  split
  · exact h
  · split
    · exact h
    · exact inv_frame t _ h rfl rfl (fun hc => hc) rfl rfl h.schedNone

/-- The threshold setter preserves the invariant (via keep). -/
theorem inv_set_limits (t : Transport) (hi lo : Option Int) (h : TransportInv t) :
    TransportInv (keep t (t.set_write_buffer_limits hi lo)) := by
  unfold Transport.set_write_buffer_limits Transport._set_write_buffer_limits
  dsimp only
  split
  · exact h
  · exact inv_maybe_resume _ (inv_maybe_pause _
      (inv_frame t _ h rfl rfl (fun hc => hc) rfl rfl h.schedNone))

/-- Running the next call-soon callback preserves the invariant. -/
theorem inv_runNext (t : Transport) (r : Bool) (h : TransportInv t) :
    TransportInv (runNext t r) := by
  unfold runNext
  split
  · exact h
  · rename_i c rest hs
    have hq : schedLostNone (c :: rest) = true := hs ▸ h.schedNone
    rw [schedLostNone_cons, Bool.and_eq_true] at hq
    have hrest : TransportInv { t with sched := rest } :=
      inv_frame t _ h rfl rfl (fun hc => hc) rfl rfl hq.2
    cases c with
    | callConnectionMade => exact inv_call_connection_made _ r hrest
    | callConnectionLost exc =>
      have hexc : exc = none := by
        cases exc
        · rfl
        · simp [schedCallOk] at hq
      subst hexc
      exact inv_call_connection_lost _ r hrest

/-- Every step of the execution model preserves the invariant. -/
theorem inv_step (t : Transport) (op : Op) (h : TransportInv t) :
    TransportInv (step t op) := by
  cases op with
  | onAccept => exact inv_on_accept t h
  | onRead n => exact inv_on_read t n h
  | onEof k => exact inv_on_eof t k h
  | onWrite f r =>
    exact inv_on_write _ r (inv_frame t _ h rfl rfl (fun hc => hc) rfl rfl h.schedNone)
  | runSoon r => exact inv_runNext t r h
  | close => exact inv_close t h
  | abort => exact inv_abort t h
  | write n => exact inv_write t n h
  | writeEof => exact inv_write_eof t h
  | pauseReading => exact inv_pause_reading t h
  | resumeReading => exact inv_resume_reading t h
  | setWriteBufferLimits hi lo => exact inv_set_limits t hi lo h
  | fatalError e => exact inv_fatal_error t e h

/-- A fresh transport satisfies the invariant. -/
theorem inv_init (hasServer : Bool) : TransportInv (initTransport hasServer) := by
  refine ⟨?_, ?_, ?_, ?_, ?_, ?_, ?_, ?_⟩ <;>
    simp [initTransport, countLost, hasMade, lostAfterMade, lostArgsNone,
      schedLostNone]

/-- The invariant holds after any execution trace. -/
theorem inv_execTrace (hasServer : Bool) (ops : List Op) :
    TransportInv (execTrace hasServer ops) := by
  have main : ∀ (l : List Op) (t : Transport), TransportInv t →
      TransportInv (l.foldl step t) := by
    intro l
    induction l with
    | nil => intro t ht; exact ht
    | cons o os ih =>
      intro t ht
      exact ih (step t o) (inv_step t o ht)
  exact main ops (initTransport hasServer) (inv_init hasServer)

/-- The pause check either does nothing or marks paused while logging one
pause_writing call. -/
theorem maybe_pause_shape (t : Transport) :
    t._maybe_pause_protocol = t ∨
    t._maybe_pause_protocol =
      { t with _protocol_paused := true, log := PEvent.pauseWriting :: t.log } := by
  unfold Transport._maybe_pause_protocol
  split_ifs <;> simp

/-- The resume check either does nothing or clears paused while logging
one resume_writing call. -/
theorem maybe_resume_shape (t : Transport) :
    t._maybe_resume_protocol = t ∨
    t._maybe_resume_protocol =
      { t with _protocol_paused := false, log := PEvent.resumeWriting :: t.log } := by
  unfold Transport._maybe_resume_protocol
  split_ifs <;> simp

/-- The pause check never changes the buffered size. -/
theorem maybe_pause_wbuf (t : Transport) :
    t._maybe_pause_protocol.wbuf = t.wbuf := by
  rcases maybe_pause_shape t with h | h <;> rw [h]

/-- On an open connected transport the teardown routine logs exactly one
connection_lost delivery on top of the previous log. -/
theorem call_connection_lost_log (t : Transport) (exc : Option OSErr) (r : Bool)
    (hcd : t._closed = false) (hpc : t._protocol_connected = true) :
    (t._call_connection_lost exc r).log = PEvent.connectionLost exc :: t.log := by
  unfold Transport._call_connection_lost Transport._close
  simp only [hcd, Bool.false_eq_true, if_false, hpc, if_true]
  split <;> rfl

/-- Draining the buffer while closing delivers connection_lost from the
write-completion hook. -/
theorem on_write_drain_log (t : Transport) (r : Bool) (hcg : t._closing = true)
    (hcd : t._closed = false) (hpc : t._protocol_connected = true) (hw : t.wbuf = 0) :
    countLost (t._on_write r).log = countLost t.log + 1 := by
  unfold Transport._on_write
  dsimp only
  rcases maybe_resume_shape t with hsh | hsh <;> rw [hsh] <;> split_ifs <;>
    first
      | (rw [call_connection_lost_log t none r hcd hpc, countLost_cons]
         simp [isLostEvent])
      | (rw [call_connection_lost_log
            { t with _protocol_paused := false, log := PEvent.resumeWriting :: t.log }
            none r hcd hpc, countLost_cons, countLost_cons]
         simp [isLostEvent])
      | simp_all [Transport._get_write_buffer_size]

/-- Draining the buffer with EOF requested and no close in progress
performs the half-close shutdown from the write-completion hook. -/
theorem on_write_drain_shutdown (t : Transport) (r : Bool) (he : t._eof = true)
    (hcg : t._closing = false) (hw : t.wbuf = 0) :
    (t._on_write r).shutdownCount = t.shutdownCount + 1 := by
  unfold Transport._on_write
  dsimp only
  rcases maybe_resume_shape t with hsh | hsh <;> rw [hsh] <;> split_ifs <;>
    first
      | rfl
      | simp_all [Transport._get_write_buffer_size]

/-- C1: for every transport (with or without an owning listener) and every
sequence of operations, the protocol's connection_lost callback is
delivered at most once, and every delivery is strictly preceded in time by
a connection_made delivery — so a transport torn down before
connection_made was delivered never receives connection_lost. -/
theorem connection_lost_at_most_once_and_after_made (hasServer : Bool) (ops : List Op) :
    countLost (execTrace hasServer ops).log ≤ 1 ∧
    lostAfterMade (execTrace hasServer ops).log = true :=
  ⟨(inv_execTrace hasServer ops).lostAtMostOnce, (inv_execTrace hasServer ops).ordered⟩

/-- C10: on every reachable state, every connection_lost delivery made to
the protocol carried None as its argument, and every connection-lost
callback still sitting on the call-soon queue also carries None — the
exception that triggered a fatal-error teardown never reaches
connection_lost. -/
theorem connection_lost_arg_always_none (hasServer : Bool) (ops : List Op) :
    lostArgsNone (execTrace hasServer ops).log = true ∧
    schedLostNone (execTrace hasServer ops).sched = true :=
  ⟨(inv_execTrace hasServer ops).argsNone, (inv_execTrace hasServer ops).schedNone⟩

/-- C8: when the final teardown routine runs on a not-yet-closed
transport, the cleanup — clearing the protocol reference, detaching from
the owning listener, and releasing (closing) the underlying handle — runs
even when the connection_lost callback raises, and over any whole
execution the listener is detached at most once. -/
theorem connection_lost_cleanup_guaranteed (t : Transport) (exc : Option OSErr)
    (raises : Bool) (h : t._closed = false) :
    (t._call_connection_lost exc raises)._protocol = false ∧
    (t._call_connection_lost exc raises)._closed = true ∧
    (t._call_connection_lost exc raises)._server = false ∧
    (t._call_connection_lost exc raises).serverDetached =
      t.serverDetached + (if t._server then 1 else 0) ∧
    ∀ (hasServer : Bool) (ops : List Op),
      (execTrace hasServer ops).serverDetached ≤ 1 := by
  refine ⟨?_, ?_, ?_, ?_, fun hs ops => (inv_execTrace hs ops).detachAtMostOnce⟩
  all_goals
    by_cases hpc : t._protocol_connected = true <;>
      by_cases hsrv : t._server = true <;>
        simp [Transport._call_connection_lost, Transport._close, h, hpc, hsrv]

/-- Witness for C8 at a concrete open transport whose callback raises. -/
theorem connection_lost_cleanup_guaranteed_witness :
    ((initTransport true)._call_connection_lost none true)._protocol = false ∧
    ((initTransport true)._call_connection_lost none true)._closed = true ∧
    ((initTransport true)._call_connection_lost none true)._server = false ∧
    ((initTransport true)._call_connection_lost none true).serverDetached =
      (initTransport true).serverDetached +
        (if (initTransport true)._server then 1 else 0) :=
  ⟨(connection_lost_cleanup_guaranteed (initTransport true) none true rfl).1,
   (connection_lost_cleanup_guaranteed (initTransport true) none true rfl).2.1,
   (connection_lost_cleanup_guaranteed (initTransport true) none true rfl).2.2.1,
   (connection_lost_cleanup_guaranteed (initTransport true) none true rfl).2.2.2.1⟩

/-- C2: the pause check marks the protocol paused and delivers exactly one
pause_writing call precisely when flow control is enabled, the buffered
size strictly exceeds the high-water mark, and the protocol is not already
paused (and otherwise leaves the state untouched); the resume check clears
the paused mark and delivers exactly one resume_writing call precisely
when flow control is enabled, the protocol is paused, and the buffered
size is at or below the low-water mark (and otherwise leaves the state
untouched). -/
theorem pause_resume_exact_conditions (t : Transport) :
    ((t._maybe_pause_protocol.log = PEvent.pauseWriting :: t.log ∧
        t._maybe_pause_protocol._protocol_paused = true) ↔
      (t._flow_control_enabled = true ∧
        t._high_water < (t._get_write_buffer_size : Int) ∧
        t._protocol_paused = false)) ∧
    (¬(t._flow_control_enabled = true ∧
        t._high_water < (t._get_write_buffer_size : Int) ∧
        t._protocol_paused = false) →
      t._maybe_pause_protocol = t) ∧
    ((t._maybe_resume_protocol.log = PEvent.resumeWriting :: t.log ∧
        t._maybe_resume_protocol._protocol_paused = false) ↔
      (t._flow_control_enabled = true ∧ t._protocol_paused = true ∧
        (t._get_write_buffer_size : Int) ≤ t._low_water)) ∧
    (¬(t._flow_control_enabled = true ∧ t._protocol_paused = true ∧
        (t._get_write_buffer_size : Int) ≤ t._low_water) →
      t._maybe_resume_protocol = t) := by
  unfold Transport._maybe_pause_protocol Transport._maybe_resume_protocol
  split_ifs with h1 h2 h3 h4 <;>
    simp_all [not_le, List.cons_ne_self, Bool.not_eq_true, le_of_lt]

/-- Witness for C2: on a transport buffered past the high mark the pause
check fires; on a paused drained transport the resume check fires; under
the high mark the pause check is a no-op. -/
theorem pause_resume_exact_conditions_witness :
    ({ initTransport false with wbuf := 70000 } :
        Transport)._maybe_pause_protocol._protocol_paused = true ∧
    ({ initTransport false with _protocol_paused := true } :
        Transport)._maybe_resume_protocol._protocol_paused = false ∧
    ({ initTransport false with wbuf := 100 } : Transport)._maybe_pause_protocol =
      { initTransport false with wbuf := 100 } := by
  refine ⟨?_, ?_, ?_⟩
  · exact ((pause_resume_exact_conditions _).1.mpr (by decide)).2
  · exact ((pause_resume_exact_conditions _).2.2.1.mpr (by decide)).2
  · exact (pause_resume_exact_conditions _).2.1 (by decide)

/-- C3 (amended): connection-lost deliveries triggered by the public
teardown methods close() and abort() and by the fatal-error path are only
ever scheduled through the loop's call-soon queue — those methods never
deliver the callback inline (the log is untouched and at most one deferred
connection-lost call is appended to the queue).  The write-completion
hook, by contrast, invokes the teardown routine inline when the buffer
drains on a closing transport (see the counterexample). -/
theorem teardown_methods_defer_connection_lost (t : Transport) (e : OSErr) :
    (t.close.log = t.log ∧
      (t.close.sched = t.sched ∨
        t.close.sched = t.sched ++ [SchedCall.callConnectionLost none])) ∧
    (t.abort.log = t.log ∧
      (t.abort.sched = t.sched ∨
        t.abort.sched = t.sched ++ [SchedCall.callConnectionLost none])) ∧
    ((t._fatal_error e).log = t.log ∧
      ((t._fatal_error e).sched = t.sched ∨
        (t._fatal_error e).sched = t.sched ++ [SchedCall.callConnectionLost none])) := by
  unfold Transport.close Transport.abort Transport._fatal_error Transport._force_close
    Transport._schedule_call_connection_lost Transport._stop_reading
  refine ⟨?_, ?_, ?_⟩
  · by_cases h1 : t._closing = true ∨ t._closed = true
    · simp [h1]
    · by_cases h2 : t.wbuf = 0 <;>
        simp [h1, h2, Transport._get_write_buffer_size]
  · by_cases h1 : t._conn_lost ≠ 0 ∨ t._closed = true
    · simp [h1]
    · by_cases h2 : t._closing = true <;> simp [h1, h2]
  · by_cases h1 : t._conn_lost ≠ 0 ∨ t._closed = true
    · simp [h1]
    · by_cases h2 : t._closing = true <;> simp [h1, h2]

/-- Counterexample to C3 as stated: after connection_made is delivered, a
write of 5 bytes followed by close() leaves a closing transport with a
non-empty buffer and an empty call-soon queue; the write-completion hook
that drains the buffer then delivers connection_lost itself — the queue is
empty before and after the hook, so the delivery was inline, not a
deferred call-soon callback. -/
theorem connection_lost_inline_from_on_write_counterexample :
    countLost (execTrace true
      [Op.onAccept, Op.runSoon false, Op.write 5, Op.close]).log = 0 ∧
    (execTrace true [Op.onAccept, Op.runSoon false, Op.write 5, Op.close]).sched = [] ∧
    countLost (step (execTrace true
      [Op.onAccept, Op.runSoon false, Op.write 5, Op.close])
        (Op.onWrite 5 false)).log = 1 ∧
    (step (execTrace true [Op.onAccept, Op.runSoon false, Op.write 5, Op.close])
        (Op.onWrite 5 false)).sched = [] := by
  decide

/-- C4: close() is a no-op on a closing or closed transport; otherwise it
marks the transport closing and stops reading, and then, with the log
untouched: if the write buffer is empty it bumps the loss counter and
appends one deferred connection-lost call to the call-soon queue, while if
the buffer is non-empty it schedules nothing and delivers nothing — the
delivery then happens exactly when the write-completion hook drains the
buffer to empty on the closing (connected, not yet closed) transport. -/
theorem close_behavior (t : Transport) :
    (t._closing = true ∨ t._closed = true → t.close = t) ∧
    (t._closing = false → t._closed = false →
      t.close._closing = true ∧ t.close.reading = false ∧ t.close.log = t.log ∧
      (t.wbuf = 0 →
        t.close.sched = t.sched ++ [SchedCall.callConnectionLost none] ∧
        t.close._conn_lost = t._conn_lost + 1) ∧
      (t.wbuf ≠ 0 → t.close.sched = t.sched ∧ t.close._conn_lost = t._conn_lost)) ∧
    (∀ (f : Nat) (r : Bool), t._closing = true → t._closed = false →
      t._protocol_connected = true → t.wbuf ≤ f →
      countLost (step t (Op.onWrite f r)).log = countLost t.log + 1) := by
  refine ⟨?_, ?_, ?_⟩
  · intro h1
    unfold Transport.close
    simp [h1]
  · intro h1 h2
    unfold Transport.close Transport._stop_reading
      Transport._schedule_call_connection_lost
    by_cases h3 : t.wbuf = 0 <;>
      simp [h1, h2, h3, Transport._get_write_buffer_size]
  · intro f r h1 h2 h3 h4
    exact on_write_drain_log { t with wbuf := t.wbuf - f } r h1 h2 h3
      (Nat.sub_eq_zero_of_le h4)

/-- Witness for C4 at concrete transports: a closing transport is left
unchanged; a fresh transport with an empty buffer schedules the deferred
call; a fresh transport with 5 buffered bytes schedules nothing; a
closing connected transport with 3 buffered bytes delivers
connection_lost when the hook drains those 3 bytes. -/
theorem close_behavior_witness :
    ({ initTransport false with _closing := true } : Transport).close =
      { initTransport false with _closing := true } ∧
    (initTransport false).close.sched =
      (initTransport false).sched ++ [SchedCall.callConnectionLost none] ∧
    ({ initTransport false with wbuf := 5 } : Transport).close.sched =
      ({ initTransport false with wbuf := 5 } : Transport).sched ∧
    countLost (step
      ({ initTransport false with
          _closing := true, _protocol_connected := true, wbuf := 3 } : Transport)
      (Op.onWrite 3 false)).log =
      countLost ({ initTransport false with
          _closing := true, _protocol_connected := true, wbuf := 3 } :
        Transport).log + 1 := by
  refine ⟨?_, ?_, ?_, ?_⟩
  · exact (close_behavior _).1 (Or.inl rfl)
  · exact (((close_behavior _).2.1 rfl rfl).2.2.2.1 rfl).1
  · exact (((close_behavior _).2.1 rfl rfl).2.2.2.2 (by decide)).1
  · exact (close_behavior _).2.2 3 false rfl rfl rfl (by decide)

/-- C5: write raises the invalid-state RuntimeError when a half-close was
already sent; an empty payload returns with no effect; when the loss
counter is positive it increments that counter and returns without error
and without enqueuing (the buffered size is unchanged); otherwise it
enqueues the bytes (buffered size grows by the payload length) and
re-evaluates the pause condition. -/
theorem write_behavior (t : Transport) (n : Nat) :
    (t._eof = true →
      t.write n =
        Except.error (PyErr.runtimeError "Cannot call write() after write_eof()")) ∧
    (t._eof = false → n = 0 → t.write n = Except.ok t) ∧
    (t._eof = false → n ≠ 0 → t._conn_lost ≠ 0 →
      t.write n = Except.ok { t with _conn_lost := t._conn_lost + 1 } ∧
      (keep t (t.write n)).wbuf = t.wbuf) ∧
    (t._eof = false → n ≠ 0 → t._conn_lost = 0 →
      t.write n = Except.ok ((t._write n)._maybe_pause_protocol) ∧
      (keep t (t.write n)).wbuf = t.wbuf + n) := by
  refine ⟨?_, ?_, ?_, ?_⟩
  · intro h1
    unfold Transport.write
    simp [h1]
  · intro h1 h2
    unfold Transport.write
    simp [h1, h2]
  · intro h1 h2 h3
    unfold Transport.write
    simp [h1, h2, h3, keep]
  · intro h1 h2 h3
    have hok : t.write n = Except.ok ((t._write n)._maybe_pause_protocol) := by
      unfold Transport.write
      simp [h1, h2, h3]
    refine ⟨hok, ?_⟩
    rw [hok]
    show ((t._write n)._maybe_pause_protocol).wbuf = t.wbuf + n
    rw [maybe_pause_wbuf]
    unfold Transport._write
    rw [maybe_pause_wbuf]
    rfl

/-- Witness for C5 at concrete transports covering all four branches. -/
theorem write_behavior_witness :
    ({ initTransport false with _eof := true } : Transport).write 4 =
      Except.error (PyErr.runtimeError "Cannot call write() after write_eof()") ∧
    (initTransport false).write 0 = Except.ok (initTransport false) ∧
    ({ initTransport false with _conn_lost := 1 } : Transport).write 4 =
      Except.ok { initTransport false with _conn_lost := 2 } ∧
    (keep (initTransport false) ((initTransport false).write 4)).wbuf =
      (initTransport false).wbuf + 4 := by
  refine ⟨?_, ?_, ?_, ?_⟩
  · exact (write_behavior _ 4).1 rfl
  · exact (write_behavior _ 0).2.1 rfl rfl
  · exact ((write_behavior _ 4).2.2.1 rfl (by decide) (by decide)).1
  · exact ((write_behavior _ 4).2.2.2 rfl (by decide) rfl).2

/-- C7: write_eof() marks EOF-requested and is idempotent (a second call
returns the state unchanged); with an empty buffer it performs the
half-close shutdown immediately, with a non-empty buffer it only sets the
flag, and the shutdown then happens from the write-completion hook once
the buffer drains (while no close is in progress). -/
theorem write_eof_behavior (t : Transport) :
    (t._eof = true → t.write_eof = t) ∧
    t.write_eof.write_eof = t.write_eof ∧
    (t._eof = false → t.wbuf = 0 →
      t.write_eof = { t with _eof := true, shutdownCount := t.shutdownCount + 1 }) ∧
    (t._eof = false → t.wbuf ≠ 0 → t.write_eof = { t with _eof := true }) ∧
    (∀ (f : Nat) (r : Bool), t._eof = true → t._closing = false → t.wbuf ≤ f →
      (step t (Op.onWrite f r)).shutdownCount = t.shutdownCount + 1) := by
  refine ⟨?_, ?_, ?_, ?_, ?_⟩
  · intro h1
    unfold Transport.write_eof
    simp [h1]
  · by_cases h1 : t._eof = true
    · unfold Transport.write_eof
      simp [h1]
    · have h1f : t._eof = false := bool_eq_false h1
      by_cases h2 : t.wbuf = 0 <;>
        unfold Transport.write_eof Transport._shutdown <;>
          simp [h1f, h2, Transport._get_write_buffer_size]
  · intro h1 h2
    unfold Transport.write_eof Transport._shutdown
    simp [h1, h2, Transport._get_write_buffer_size]
  · intro h1 h2
    unfold Transport.write_eof
    simp [h1, h2, Transport._get_write_buffer_size]
  · intro f r h1 h2 h3
    exact on_write_drain_shutdown { t with wbuf := t.wbuf - f } r h1 h2
      (Nat.sub_eq_zero_of_le h3)

/-- Witness for C7 at concrete transports: double write_eof on a drained
transport shuts down once; with 5 buffered bytes only the flag is set and
the shutdown fires when the hook drains the bytes. -/
theorem write_eof_behavior_witness :
    ({ initTransport false with _eof := true } : Transport).write_eof =
      { initTransport false with _eof := true } ∧
    (initTransport false).write_eof =
      { initTransport false with _eof := true, shutdownCount := 1 } ∧
    ({ initTransport false with wbuf := 5 } : Transport).write_eof =
      { initTransport false with wbuf := 5, _eof := true } ∧
    (step ({ initTransport false with _eof := true, wbuf := 5 } : Transport)
        (Op.onWrite 5 false)).shutdownCount =
      ({ initTransport false with _eof := true, wbuf := 5 } :
        Transport).shutdownCount + 1 := by
  refine ⟨?_, ?_, ?_, ?_⟩
  · exact (write_eof_behavior _).1 rfl
  · exact (write_eof_behavior _).2.2.1 rfl rfl
  · exact (write_eof_behavior _).2.2.2.1 rfl (by decide)
  · exact (write_eof_behavior _).2.2.2.2 5 false rfl rfl (by decide)

/-- Counterexample to C6 as stated: calling set_write_buffer_limits with
high unspecified but low given (low = 1000) succeeds and sets the
high-water mark to the fixed low-water constant (16384), not to the fixed
high-water constant (65536) that the claim says high always defaults
to. -/
theorem high_water_default_counterexample :
    (step (initTransport false) (Op.setWriteBufferLimits none (some 1000)))._high_water =
      FLOW_CONTROL_LOW_WATER ∧
    (step (initTransport false)
        (Op.setWriteBufferLimits none (some 1000)))._high_water ≠
      FLOW_CONTROL_HIGH_WATER ∧
    isErr ((initTransport false).set_write_buffer_limits none (some 1000)) = false := by
  decide

/-- C6 (amended): an unspecified high threshold defaults to the fixed
high-water constant only when low is also unspecified; when low is given,
it defaults to the fixed low-water constant instead.  An unspecified low
threshold always defaults to a quarter of the (defaulted) high value,
which in the both-unspecified case equals the fixed low-water constant. -/
theorem set_write_buffer_limits_defaults (t : Transport) (hv lv : Int) :
    t.set_write_buffer_limits none none =
      t.set_write_buffer_limits (some FLOW_CONTROL_HIGH_WATER)
        (some (FLOW_CONTROL_HIGH_WATER.fdiv 4)) ∧
    FLOW_CONTROL_HIGH_WATER.fdiv 4 = FLOW_CONTROL_LOW_WATER ∧
    (lv ≠ -1 → t.set_write_buffer_limits none (some lv) =
      t.set_write_buffer_limits (some FLOW_CONTROL_LOW_WATER) (some lv)) ∧
    (hv ≠ -1 → t.set_write_buffer_limits (some hv) none =
      t.set_write_buffer_limits (some hv) (some (hv.fdiv 4))) := by
  refine ⟨?_, by decide, ?_, ?_⟩
  · have e1 : FLOW_CONTROL_HIGH_WATER.fdiv 4 = FLOW_CONTROL_LOW_WATER := by decide
    unfold Transport.set_write_buffer_limits Transport._set_write_buffer_limits
    simp [optToInt, defaultHigh, defaultLow, e1,
      show (FLOW_CONTROL_LOW_WATER : Int) ≠ -1 from by decide,
      show (FLOW_CONTROL_HIGH_WATER : Int) ≠ -1 from by decide]
  · intro hl
    unfold Transport.set_write_buffer_limits Transport._set_write_buffer_limits
    simp [optToInt, defaultHigh, defaultLow, hl]
  · intro hh
    unfold Transport.set_write_buffer_limits Transport._set_write_buffer_limits
    simp [optToInt, defaultHigh, defaultLow, hh]

/-- Witness for C6 (amended) at concrete arguments low = 1000 and
high = 2000. -/
theorem set_write_buffer_limits_defaults_witness :
    (initTransport false).set_write_buffer_limits none (some 1000) =
      (initTransport false).set_write_buffer_limits
        (some FLOW_CONTROL_LOW_WATER) (some 1000) ∧
    (initTransport false).set_write_buffer_limits (some 2000) none =
      (initTransport false).set_write_buffer_limits
        (some 2000) (some (Int.fdiv 2000 4)) :=
  ⟨(set_write_buffer_limits_defaults (initTransport false) 2000 1000).2.2.1
      (by decide),
   (set_write_buffer_limits_defaults (initTransport false) 2000 1000).2.2.2
      (by decide)⟩

/-- C9: the public set_write_buffer_limits raises exactly when, after
defaulting, the condition high ≥ low ≥ 0 fails; the raised error is a
ValueError (invalid argument); and when it raises, the transport state —
in particular both thresholds — is left untouched. -/
theorem keep_eq_of_isErr (t : Transport) (r : Except PyErr Transport)
    (h : isErr r = true) : keep t r = t := by
  cases r with
  | error e => rfl
  | ok t1 => simp [isErr] at h

/-- C9: the public set_write_buffer_limits raises exactly when, after
defaulting, the condition high ≥ low ≥ 0 fails; the raised error is a
ValueError (invalid argument); and when it raises, the transport state —
in particular both thresholds — is left untouched. -/
theorem set_write_buffer_limits_validation (t : Transport) (hi lo : Option Int) :
    (isErr (t.set_write_buffer_limits hi lo) = true ↔
      ¬(defaultHigh (optToInt hi) (optToInt lo) ≥
          defaultLow (defaultHigh (optToInt hi) (optToInt lo)) (optToInt lo) ∧
        defaultLow (defaultHigh (optToInt hi) (optToInt lo)) (optToInt lo) ≥ 0)) ∧
    (∀ e, t.set_write_buffer_limits hi lo = Except.error e → isValueError e = true) ∧
    (isErr (t.set_write_buffer_limits hi lo) = true →
      step t (Op.setWriteBufferLimits hi lo) = t) := by
  by_cases h1 : ¬(defaultHigh (optToInt hi) (optToInt lo) ≥
      defaultLow (defaultHigh (optToInt hi) (optToInt lo)) (optToInt lo) ∧
    defaultLow (defaultHigh (optToInt hi) (optToInt lo)) (optToInt lo) ≥ 0)
  · have herr : isErr (t.set_write_buffer_limits hi lo) = true := by
      unfold Transport.set_write_buffer_limits Transport._set_write_buffer_limits
      dsimp only
      rw [if_pos h1]
      rfl
    refine ⟨⟨fun _ => h1, fun _ => herr⟩, ?_, ?_⟩
    · intro e he
      unfold Transport.set_write_buffer_limits
        Transport._set_write_buffer_limits at he
      dsimp only at he
      rw [if_pos h1] at he
      injection he with h2
      rw [← h2]
      rfl
    · intro _
      exact keep_eq_of_isErr t _ herr
  · have hok : isErr (t.set_write_buffer_limits hi lo) = false := by
      unfold Transport.set_write_buffer_limits Transport._set_write_buffer_limits
      dsimp only
      rw [if_neg h1]
      rfl
    refine ⟨⟨?_, fun hc => absurd hc h1⟩, ?_, ?_⟩
    · intro hc
      rw [hok] at hc
      cases hc
    · intro e he
      unfold Transport.set_write_buffer_limits
        Transport._set_write_buffer_limits at he
      dsimp only at he
      rw [if_neg h1] at he
      cases he
    · intro hc
      rw [hok] at hc
      cases hc

/-- Witness for C9: high = 10 with low = 20 violates high ≥ low, raises,
and leaves the transport unchanged. -/
theorem set_write_buffer_limits_validation_witness :
    isErr ((initTransport false).set_write_buffer_limits (some 10) (some 20)) = true ∧
    step (initTransport false) (Op.setWriteBufferLimits (some 10) (some 20)) =
      initTransport false := by
  refine ⟨?_, ?_⟩
  · exact (set_write_buffer_limits_validation (initTransport false)
      (some 10) (some 20)).1.mpr (by decide)
  · exact (set_write_buffer_limits_validation (initTransport false)
      (some 10) (some 20)).2.2
      ((set_write_buffer_limits_validation (initTransport false)
        (some 10) (some 20)).1.mpr (by decide))
